import Mathlib

/-!
Shallow embedding of the protocol schema layer of `pixi-build`
(`src/schema/model.py`): the pydantic message models for the `initialize`
and `condaMetadata` RPC methods, their field-level validation semantics,
serialization, JSON-schema emission, and the protocol sequencing layer
described in the specification.

Wire payloads are modelled as a `Json` value type.  Validation of a model
follows pydantic v2 semantics: every field is validated independently and
the errors of all failing fields are accumulated (applicative style, via
`vap`); a payload either yields a complete typed value or a non-empty list
of field-level diagnostics, each carrying the field path.
-/

namespace PixiSchema

/-- A parsed JSON value (the raw structured payload of an RPC call). -/
inductive Json where
  | null : Json
  | bool : Bool → Json
  | num : Int → Json
  | str : String → Json
  | arr : List Json → Json
  | obj : List (String × Json) → Json
deriving Inhabited

/-- Look up a field of a JSON object (first occurrence of the key);
`none` on non-objects and absent keys. -/
def Json.getField : Json → String → Option Json
  | .obj kvs, k => (kvs.find? (fun kv => kv.1 == k)).map (fun kv => kv.2)
  | _, _ => none

/-- Whether a JSON value is an object. -/
def Json.isObj : Json → Bool
  | .obj _ => true
  | _ => false

/-- Kinds a filesystem path can have; models the result of the `is_dir`
check performed by pydantic's `DirectoryPath`. -/
inductive PathKind where
  | directory : PathKind
  | file : PathKind
  | missing : PathKind
deriving Repr, DecidableEq

/-- A filesystem, abstracted to what `DirectoryPath` validation observes. -/
def FileSystem := String → PathKind

/-- A field-level validation diagnostic: constructor identifies the
violated constraint, the first argument is always the field path. -/
inductive ValidationError where
  | missingField : String → ValidationError
  | emptyString : String → ValidationError
  | notAString : String → ValidationError
  | notAnInt : String → ValidationError
  | negativeInt : String → Int → ValidationError
  | notABool : String → ValidationError
  | notAList : String → ValidationError
  | notAnObject : String → ValidationError
  | invalidUrl : String → String → ValidationError
  | urlSchemeNotAllowed : String → String → ValidationError
  | pathNotADirectory : String → String → ValidationError
deriving Repr, DecidableEq

/-- The field path a diagnostic refers to. -/
def ValidationError.path : ValidationError → String
  | .missingField p => p
  | .emptyString p => p
  | .notAString p => p
  | .notAnInt p => p
  | .negativeInt p _ => p
  | .notABool p => p
  | .notAList p => p
  | .notAnObject p => p
  | .invalidUrl p _ => p
  | .urlSchemeNotAllowed p _ => p
  | .pathNotADirectory p _ => p

/-- Result of validating into a typed value: a complete value or a
non-empty accumulated list of field diagnostics. -/
abbrev V (α : Type) := Except (List ValidationError) α

/-- Applicative combination of two validation results, accumulating the
errors of both sides (pydantic reports every failing field, not just the
first). -/
def vap : V (α → β) → V α → V β
  | .ok f, .ok a => .ok (f a)
  | .error e, .ok _ => .error e
  | .ok _, .error e => .error e
  | .error e₁, .error e₂ => .error (e₁ ++ e₂)

/-- The diagnostics carried by a validation result (empty on success). -/
def errs : V α → List ValidationError
  | .ok _ => []
  | .error e => e

/-- Join a parent path and a field name with a dot (pydantic `loc`). -/
def joinPath (p f : String) : String :=
  if p = "" then f else p ++ "." ++ f

/-! ### Constrained scalar types (`model.py` lines 17-25) -/

/-- `NonEmptyStr = constr(min_length=1)`. -/
abbrev NonEmptyStr := String

/-- `Platform = NonEmptyStr`. -/
abbrev Platform := NonEmptyStr

/-- `PackageName = NonEmptyStr`. -/
abbrev PackageName := NonEmptyStr

/-- `Version = NonEmptyStr`. -/
abbrev Version := NonEmptyStr

/-- A parsed URL, reduced to what `UrlConstraints(allowed_schemes=...)`
observes: the scheme (stored lowercased, as pydantic normalises it) and
everything after the `://` separator. -/
structure CondaUrl where
  scheme : String
  rest : String
deriving Repr, DecidableEq

/-- The allowed schemes of `CondaUrl`:
`UrlConstraints(allowed_schemes=['http', 'https', 'file'])`. -/
def condaAllowedSchemes : List String := ["http", "https", "file"]

/-- Parse `scheme://rest` from a character list: a non-empty alphabetic
scheme, the literal `://`, and a non-empty remainder; the scheme is
lowercased as pydantic-core does. -/
def parseUrlChars (cs : List Char) : Option (String × String) :=
  let scheme := cs.takeWhile (fun c => c.isAlpha)
  match cs.dropWhile (fun c => c.isAlpha) with
  | ':' :: '/' :: '/' :: tail =>
    if scheme.isEmpty ∨ tail.isEmpty then none
    else some (String.mk (scheme.map Char.toLower), String.mk tail)
  | _ => none

/-- Parse a URL string into scheme and remainder. -/
def parseUrl (s : String) : Option (String × String) :=
  parseUrlChars s.data

/-- Render a `CondaUrl` back to its wire string. -/
def serializeUrl (u : CondaUrl) : String :=
  u.scheme ++ "://" ++ u.rest

/-! ### Message models (`model.py` lines 31-99) -/

/-- `BackendCapabilities`: `providesCondaMetadata: bool | None = None`. -/
structure BackendCapabilities where
  providesCondaMetadata : Option Bool
deriving Repr, DecidableEq

/-- `FrontendCapabilities`: structurally empty model. -/
structure FrontendCapabilities where
deriving Repr, DecidableEq

/-- `InitializeParams`: required `sourceDir: DirectoryPath` and required
`capabilities: FrontendCapabilities`. -/
structure InitializeParams where
  sourceDir : String
  capabilities : FrontendCapabilities
deriving Repr, DecidableEq

/-- `InitializeResult`: required `capabilities: BackendCapabilities`. -/
structure InitializeResult where
  capabilities : BackendCapabilities
deriving Repr, DecidableEq

/-- `CondaMetadataParams`: optional `targetPlatform: Platform | None` and
`channelBaseUrls: List[CondaUrl] = Field(None, ...)` — the declared type
is a plain list, but the default is `None` and defaults are not
validated, so the typed value can hold `none`. -/
structure CondaMetadataParams where
  targetPlatform : Option Platform
  channelBaseUrls : Option (List CondaUrl)
deriving Repr, DecidableEq

/-- `CondaPackageMetadata` (`model.py` lines 78-95). -/
structure CondaPackageMetadata where
  name : PackageName
  version : Version
  build : NonEmptyStr
  buildNumber : Nat
  subdir : Platform
  depends : Option (List NonEmptyStr)
  constrains : Option (List NonEmptyStr)
  license : Option NonEmptyStr
  licenseFamily : Option NonEmptyStr
deriving Repr, DecidableEq

/-- `CondaMetadataResult`: required `packages: List[CondaPackageMetadata]`. -/
structure CondaMetadataResult where
  packages : List CondaPackageMetadata
deriving Repr, DecidableEq

/-! ### Field validators -/

/-- Validate a present JSON value against `NonEmptyStr`
(`constr(min_length=1)`): must be a string of length ≥ 1. -/
def validateNonEmptyStr (path : String) : Json → V String
  | .str s => if s.length = 0 then .error [.emptyString path] else .ok s
  | _ => .error [.notAString path]

/-- A required `NonEmptyStr` field: absence is a `missingField` failure,
distinct from the empty-string failure. -/
def validateReqNonEmptyStr (path : String) : Option Json → V String
  | none => .error [.missingField path]
  | some v => validateNonEmptyStr path v

/-- An optional `NonEmptyStr | None = None` field: absent or explicit
null yields `none`. -/
def validateOptNonEmptyStr (path : String) : Option Json → V (Option String)
  | none => .ok none
  | some .null => .ok none
  | some v => (validateNonEmptyStr path v).map some

/-- Validate a present JSON value against `CondaUrl`: must be a string
that parses as a URL whose scheme is in `condaAllowedSchemes`. -/
def validateCondaUrl (path : String) : Json → V CondaUrl
  | .str s =>
    match parseUrl s with
    | none => .error [.invalidUrl path s]
    | some (scheme, rest) =>
      if scheme ∈ condaAllowedSchemes then .ok ⟨scheme, rest⟩
      else .error [.urlSchemeNotAllowed path scheme]
  | _ => .error [.notAString path]

/-- Validate the entries of a `List[CondaUrl]`, indices from `i`;
diagnostics of all failing entries accumulate. -/
def validateCondaUrlList (path : String) (i : Nat) : List Json → V (List CondaUrl)
  | [] => .ok []
  | j :: rest =>
    vap ((validateCondaUrl (joinPath path (toString i)) j).map (fun u l => u :: l))
      (validateCondaUrlList path (i + 1) rest)

/-- The `channelBaseUrls` field of `CondaMetadataParams`: declared
`List[CondaUrl]` but with default `None`, which pydantic does not
validate — absent yields `none`, while an explicit `null` fails the list
type check. -/
def validateChannelBaseUrls : Option Json → V (Option (List CondaUrl))
  | none => .ok none
  | some (.arr js) => (validateCondaUrlList "channelBaseUrls" 0 js).map some
  | some _ => .error [.notAList "channelBaseUrls"]

/-- The `buildNumber: NonNegativeInt = 0` field: defaults to 0 when
absent, rejects negative integers, accepts non-negative ones as given. -/
def validateBuildNumber (path : String) : Option Json → V Nat
  | none => .ok 0
  | some (.num n) =>
    if n < 0 then .error [.negativeInt path n] else .ok n.toNat
  | some _ => .error [.notAnInt path]

/-- Validate the entries of a `List[NonEmptyStr]`, indices from `i`. -/
def validateNonEmptyStrList (path : String) (i : Nat) : List Json → V (List String)
  | [] => .ok []
  | j :: rest =>
    vap ((validateNonEmptyStr (joinPath path (toString i)) j).map (fun s l => s :: l))
      (validateNonEmptyStrList path (i + 1) rest)

/-- An optional `List[NonEmptyStr] | None = None` field (`depends`,
`constrains`): absent or null yields `none`. -/
def validateOptStrList (path : String) : Option Json → V (Option (List String))
  | none => .ok none
  | some .null => .ok none
  | some (.arr js) => (validateNonEmptyStrList path 0 js).map some
  | some _ => .error [.notAList path]

/-- The optional `providesCondaMetadata: bool | None = None` field:
absent or explicit null yields `none` (unspecified), never `some false`. -/
def validateOptBool (path : String) : Option Json → V (Option Bool)
  | none => .ok none
  | some .null => .ok none
  | some (.bool b) => .ok (some b)
  | some _ => .error [.notABool path]

/-- The required `sourceDir: DirectoryPath` field: the path must name an
existing directory of the ambient filesystem at validation time. -/
def validateSourceDir (fs : FileSystem) : Option Json → V String
  | none => .error [.missingField "sourceDir"]
  | some (.str s) =>
    if fs s = PathKind.directory then .ok s
    else .error [.pathNotADirectory "sourceDir" s]
  | some _ => .error [.notAString "sourceDir"]

/-! ### Model validators -/

/-- Validate a `BackendCapabilities` payload. -/
def validateBackendCapabilities (path : String) (j : Json) : V BackendCapabilities :=
  match j with
  | .obj _ =>
    (validateOptBool (joinPath path "providesCondaMetadata")
      (j.getField "providesCondaMetadata")).map (fun b => ⟨b⟩)
  | _ => .error [.notAnObject path]

/-- Validate a `FrontendCapabilities` payload: any object (unknown
fields are ignored, the model is permissive). -/
def validateFrontendCapabilities (path : String) (j : Json) : V FrontendCapabilities :=
  match j with
  | .obj _ => .ok ⟨⟩
  | _ => .error [.notAnObject path]

/-- Validate an `InitializeParams` payload against the filesystem `fs`. -/
def validateInitializeParams (fs : FileSystem) (j : Json) : V InitializeParams :=
  match j with
  | .obj _ =>
    vap ((validateSourceDir fs (j.getField "sourceDir")).map
          (fun d c => InitializeParams.mk d c))
      (match j.getField "capabilities" with
       | none => .error [.missingField "capabilities"]
       | some v => validateFrontendCapabilities "capabilities" v)
  | _ => .error [.notAnObject ""]

/-- Validate an `InitializeResult` payload. -/
def validateInitializeResult (j : Json) : V InitializeResult :=
  match j with
  | .obj _ =>
    match j.getField "capabilities" with
    | none => .error [.missingField "capabilities"]
    | some v => (validateBackendCapabilities "capabilities" v).map
        (fun c => InitializeResult.mk c)
  | _ => .error [.notAnObject ""]

/-- Validate a `CondaMetadataParams` payload. -/
def validateCondaMetadataParams (j : Json) : V CondaMetadataParams :=
  match j with
  | .obj _ =>
    vap ((validateOptNonEmptyStr "targetPlatform" (j.getField "targetPlatform")).map
          (fun tp us => CondaMetadataParams.mk tp us))
      (validateChannelBaseUrls (j.getField "channelBaseUrls"))
  | _ => .error [.notAnObject ""]

/-- Validate a `CondaPackageMetadata` payload. -/
def validateCondaPackageMetadata (path : String) (j : Json) : V CondaPackageMetadata :=
  match j with
  | .obj _ =>
    vap (vap (vap (vap (vap (vap (vap (vap
      ((validateReqNonEmptyStr (joinPath path "name") (j.getField "name")).map
        CondaPackageMetadata.mk)
      (validateReqNonEmptyStr (joinPath path "version") (j.getField "version")))
      (validateReqNonEmptyStr (joinPath path "build") (j.getField "build")))
      (validateBuildNumber (joinPath path "buildNumber") (j.getField "buildNumber")))
      (validateReqNonEmptyStr (joinPath path "subdir") (j.getField "subdir")))
      (validateOptStrList (joinPath path "depends") (j.getField "depends")))
      (validateOptStrList (joinPath path "constrains") (j.getField "constrains")))
      (validateOptNonEmptyStr (joinPath path "license") (j.getField "license")))
      (validateOptNonEmptyStr (joinPath path "licenseFamily") (j.getField "licenseFamily"))
  | _ => .error [.notAnObject path]

/-- Validate the entries of a `List[CondaPackageMetadata]`, indices
from `i`. -/
def validatePackagesList (path : String) (i : Nat) : List Json → V (List CondaPackageMetadata)
  | [] => .ok []
  | j :: rest =>
    vap ((validateCondaPackageMetadata (joinPath path (toString i)) j).map
          (fun p l => p :: l))
      (validatePackagesList path (i + 1) rest)

/-- Validate a `CondaMetadataResult` payload: required
`packages: List[CondaPackageMetadata]`. -/
def validateCondaMetadataResult (j : Json) : V CondaMetadataResult :=
  match j with
  | .obj _ =>
    match j.getField "packages" with
    | none => .error [.missingField "packages"]
    | some (.arr js) => (validatePackagesList "packages" 0 js).map
        (fun ps => CondaMetadataResult.mk ps)
    | some _ => .error [.notAList "packages"]
  | _ => .error [.notAnObject ""]

/-! ### Serialization (pydantic `model_dump` in JSON mode: every field is
emitted, `None` as JSON null) -/

/-- Serialize an `Option String` field value. -/
def serializeOptStr : Option String → Json
  | none => .null
  | some s => .str s

/-- Serialize an optional list of strings. -/
def serializeOptStrList : Option (List String) → Json
  | none => .null
  | some l => .arr (l.map (fun s => .str s))

/-- Serialize a `CondaMetadataParams` value; the unvalidated default
`none` of `channelBaseUrls` dumps as JSON null, like pydantic. -/
def serializeCondaMetadataParams (p : CondaMetadataParams) : Json :=
  .obj [("targetPlatform", serializeOptStr p.targetPlatform),
        ("channelBaseUrls",
          match p.channelBaseUrls with
          | none => .null
          | some us => .arr (us.map (fun u => .str (serializeUrl u))))]

/-- Serialize a `CondaPackageMetadata` value. -/
def serializeCondaPackageMetadata (m : CondaPackageMetadata) : Json :=
  .obj [("name", .str m.name),
        ("version", .str m.version),
        ("build", .str m.build),
        ("buildNumber", .num (Int.ofNat m.buildNumber)),
        ("subdir", .str m.subdir),
        ("depends", serializeOptStrList m.depends),
        ("constrains", serializeOptStrList m.constrains),
        ("license", serializeOptStr m.license),
        ("licenseFamily", serializeOptStr m.licenseFamily)]

/-- Serialize a `CondaMetadataResult` value. -/
def serializeCondaMetadataResult (r : CondaMetadataResult) : Json :=
  .obj [("packages", .arr (r.packages.map serializeCondaPackageMetadata))]

/-! ### Well-formedness of typed values (what successful validation
guarantees, used as round-trip hypotheses) -/

/-- A `CondaUrl` value is well formed when its scheme is one of the
allowed (lowercase alphabetic) schemes and its remainder is non-empty. -/
def CondaUrl.wf (u : CondaUrl) : Prop :=
  u.scheme ∈ condaAllowedSchemes ∧ u.rest ≠ ""

instance (u : CondaUrl) : Decidable u.wf := by
  unfold CondaUrl.wf; infer_instance

/-- A `CondaMetadataParams` value is well formed when its optional
platform is non-empty and all its channel URLs are well formed. -/
def CondaMetadataParams.wf (p : CondaMetadataParams) : Prop :=
  (∀ s ∈ p.targetPlatform, s ≠ "") ∧
  (∀ us ∈ p.channelBaseUrls, ∀ u ∈ us, u.wf)

instance (p : CondaMetadataParams) : Decidable p.wf := by
  unfold CondaMetadataParams.wf; infer_instance

/-- A `CondaPackageMetadata` value is well formed when every
`NonEmptyStr`-typed field (present entries included) is non-empty. -/
def CondaPackageMetadata.wf (m : CondaPackageMetadata) : Prop :=
  m.name ≠ "" ∧ m.version ≠ "" ∧ m.build ≠ "" ∧ m.subdir ≠ "" ∧
  (∀ l ∈ m.depends, ∀ s ∈ l, s ≠ "") ∧
  (∀ l ∈ m.constrains, ∀ s ∈ l, s ≠ "") ∧
  (∀ s ∈ m.license, s ≠ "") ∧
  (∀ s ∈ m.licenseFamily, s ≠ "")

instance (m : CondaPackageMetadata) : Decidable m.wf := by
  unfold CondaPackageMetadata.wf; infer_instance

/-- A `CondaMetadataResult` value is well formed when all its packages
are. -/
def CondaMetadataResult.wf (r : CondaMetadataResult) : Prop :=
  ∀ m ∈ r.packages, m.wf

instance (r : CondaMetadataResult) : Decidable r.wf := by
  unfold CondaMetadataResult.wf; infer_instance

/-! ### Emitted JSON schema (`Schema = TypeAdapter(Union[...])`,
`model.py` lines 102-104, and `Schema.json_schema()`) -/

/-- The type of a field as rendered in the emitted schema document. -/
inductive FieldType where
  | nonEmptyStr : FieldType
  | directoryPath : FieldType
  | condaUrl : FieldType
  | nonNegInt : FieldType
  | boolT : FieldType
  | listOf : FieldType → FieldType
  | nullable : FieldType → FieldType
  | ref : String → FieldType
deriving Repr, DecidableEq

/-- The model names a field type refers to (`$ref` targets). -/
def FieldType.refNames : FieldType → List String
  | .listOf t => t.refNames
  | .nullable t => t.refNames
  | .ref n => [n]
  | _ => []

/-- One property of a model in the emitted schema: its name, type, and
whether it is required (pydantic marks exactly the fields without a
default as required). -/
structure FieldSchema where
  fname : String
  ftype : FieldType
  required : Bool
deriving Repr, DecidableEq

/-- One model definition in the emitted schema document. -/
structure ModelSchema where
  mname : String
  fields : List FieldSchema
deriving Repr, DecidableEq

/-- Schema of `BackendCapabilities`. -/
def backendCapabilitiesSchema : ModelSchema :=
  ⟨"BackendCapabilities",
   [⟨"providesCondaMetadata", .nullable .boolT, false⟩]⟩

/-- Schema of `FrontendCapabilities` (no properties). -/
def frontendCapabilitiesSchema : ModelSchema :=
  ⟨"FrontendCapabilities", []⟩

/-- Schema of `InitializeParams`. -/
def initializeParamsSchema : ModelSchema :=
  ⟨"InitializeParams",
   [⟨"sourceDir", .directoryPath, true⟩,
    ⟨"capabilities", .ref "FrontendCapabilities", true⟩]⟩

/-- Schema of `InitializeResult`. -/
def initializeResultSchema : ModelSchema :=
  ⟨"InitializeResult",
   [⟨"capabilities", .ref "BackendCapabilities", true⟩]⟩

/-- Schema of `CondaMetadataParams`; both fields have defaults, so
neither is required. -/
def condaMetadataParamsSchema : ModelSchema :=
  ⟨"CondaMetadataParams",
   [⟨"targetPlatform", .nullable .nonEmptyStr, false⟩,
    ⟨"channelBaseUrls", .listOf .condaUrl, false⟩]⟩

/-- Schema of `CondaPackageMetadata`. -/
def condaPackageMetadataSchema : ModelSchema :=
  ⟨"CondaPackageMetadata",
   [⟨"name", .nonEmptyStr, true⟩,
    ⟨"version", .nonEmptyStr, true⟩,
    ⟨"build", .nonEmptyStr, true⟩,
    ⟨"buildNumber", .nonNegInt, false⟩,
    ⟨"subdir", .nonEmptyStr, true⟩,
    ⟨"depends", .nullable (.listOf .nonEmptyStr), false⟩,
    ⟨"constrains", .nullable (.listOf .nonEmptyStr), false⟩,
    ⟨"license", .nullable .nonEmptyStr, false⟩,
    ⟨"licenseFamily", .nullable .nonEmptyStr, false⟩]⟩

/-- Schema of `CondaMetadataResult`. -/
def condaMetadataResultSchema : ModelSchema :=
  ⟨"CondaMetadataResult",
   [⟨"packages", .listOf (.ref "CondaPackageMetadata"), true⟩]⟩

/-- Every model of `model.py`. -/
def allModelSchemas : List ModelSchema :=
  [backendCapabilitiesSchema, frontendCapabilitiesSchema,
   initializeParamsSchema, initializeResultSchema,
   condaMetadataParamsSchema, condaPackageMetadataSchema,
   condaMetadataResultSchema]

/-- Look up a model definition by name. -/
def lookupModel (n : String) : Option ModelSchema :=
  allModelSchemas.find? (fun m => m.mname == n)

/-- The model names a model's fields refer to. -/
def modelRefNames (m : ModelSchema) : List String :=
  (m.fields.map (fun f => f.ftype.refNames)).flatten

/-- The members of the top-level union, in source order:
`TypeAdapter(Union[InitializeParams, InitializeResult,
CondaMetadataParams, CondaMetadataResult])`. -/
def schemaUnionMembers : List ModelSchema :=
  [initializeParamsSchema, initializeResultSchema,
   condaMetadataParamsSchema, condaMetadataResultSchema]

/-- Collect, breadth first with fuel, the names of all model definitions
reachable from the frontier via `$ref` (pydantic puts every referenced
model into the `$defs` of the emitted document). -/
def collectDefs : Nat → List String → List String → List String
  | 0, visited, _ => visited
  | _ + 1, visited, [] => visited
  | fuel + 1, visited, n :: frontier =>
    if n ∈ visited then collectDefs fuel visited frontier
    else
      match lookupModel n with
      | none => collectDefs fuel visited frontier
      | some m => collectDefs fuel (visited ++ [n]) (frontier ++ modelRefNames m)

/-- The emitted machine-readable schema document: every model definition
reachable from the four union members. -/
def schemaDocument : List ModelSchema :=
  (collectDefs 32 [] (schemaUnionMembers.map (fun m => m.mname))).filterMap lookupModel

/-- The names of the required fields of a model as the emitted document
describes it. -/
def requiredFieldsInDoc (n : String) : List String :=
  match (schemaDocument.find? (fun m => m.mname == n)) with
  | none => []
  | some m => (m.fields.filter (fun f => f.required)).map (fun f => f.fname)

/-! ### Dispatch envelope and session sequencing.

Modelled from the spec: the dispatch layer (method binding and the
Uninitialized/Initialized session state machine) is described in §4.2 of
the specification but is not part of `src/schema/model.py`; it lives in
the excluded frontend/backend processes. -/

/-- Modelled from the spec: the per-session protocol state (§4.2); the
source repository contains only the message schemas, not this layer. -/
inductive SessionState where
  | uninitialized : SessionState
  | initialized : SessionState
deriving Repr, DecidableEq

/-- Modelled from the spec: the two disjoint protocol error taxonomies
(§7) — payload validation failure versus protocol-sequencing violation. -/
inductive RpcError where
  | validation : List ValidationError → RpcError
  | sequencing : String → RpcError
deriving Repr, DecidableEq

/-- Modelled from the spec: dispatch of the `initialize` method — a
second `initialize` in an initialized session is a sequencing error; in
an uninitialized session the payload is validated and only a validated
`InitializeParams` reaches the handler, moving the session to
`initialized`. -/
def dispatchInitialize (fs : FileSystem) (st : SessionState) (j : Json)
    (handler : InitializeParams → InitializeResult) :
    Except RpcError (InitializeResult × SessionState) :=
  match st with
  | .initialized => .error (.sequencing "initialize called twice")
  | .uninitialized =>
    match validateInitializeParams fs j with
    | .error es => .error (.validation es)
    | .ok p => .ok (handler p, .initialized)

/-- Modelled from the spec: dispatch of the `condaMetadata` method —
calling it while the session is uninitialized is a sequencing error,
whatever the payload; otherwise the payload is validated and only a
validated `CondaMetadataParams` reaches the handler. -/
def dispatchCondaMetadata (st : SessionState) (j : Json)
    (handler : CondaMetadataParams → CondaMetadataResult) :
    Except RpcError (CondaMetadataResult × SessionState) :=
  match st with
  | .uninitialized => .error (.sequencing "condaMetadata before initialize")
  | .initialized =>
    match validateCondaMetadataParams j with
    | .error es => .error (.validation es)
    | .ok p => .ok (handler p, .initialized)

/-! ### Toolkit lemmas about validation results -/

theorem vap_ok_ok {α β : Type} (f : α → β) (a : α) :
    vap (.ok f) (.ok a) = .ok (f a) := rfl

theorem vap_eq_ok {α β : Type} {f : V (α → β)} {x : V α} {y : β}
    (h : vap f x = .ok y) : ∃ g a, f = .ok g ∧ x = .ok a ∧ y = g a := by
  cases f with
  | error e => cases x <;> simp [vap] at h
  | ok g =>
    cases x with
    | error e => simp [vap] at h
    | ok a =>
      simp [vap] at h
      exact ⟨g, a, rfl, rfl, h.symm⟩

theorem map_eq_ok {α β : Type} {f : α → β} {x : V α} {y : β}
    (h : Except.map f x = .ok y) : ∃ a, x = .ok a ∧ y = f a := by
  cases x with
  | error e => simp [Except.map] at h
  | ok a =>
    simp [Except.map] at h
    exact ⟨a, rfl, h.symm⟩

theorem errs_map {α β : Type} (f : α → β) (x : V α) :
    errs (Except.map f x) = errs x := by
  cases x <;> rfl

theorem mem_errs_vap_left {α β : Type} {f : V (α → β)} {x : V α}
    {e : ValidationError} (h : e ∈ errs f) : e ∈ errs (vap f x) := by
  cases f with
  | ok g => simp [errs] at h
  | error es =>
    cases x with
    | ok a => exact h
    | error es₂ => simp [vap, errs] at h ⊢; exact Or.inl h

theorem mem_errs_vap_right {α β : Type} {f : V (α → β)} {x : V α}
    {e : ValidationError} (h : e ∈ errs x) : e ∈ errs (vap f x) := by
  cases x with
  | ok a => simp [errs] at h
  | error es =>
    cases f with
    | ok g => exact h
    | error es₁ => simp [vap, errs] at h ⊢; exact Or.inr h

theorem eq_error_of_mem_errs {α : Type} {x : V α} {e : ValidationError}
    (h : e ∈ errs x) : ∃ es, x = .error es ∧ e ∈ es := by
  cases x with
  | ok a => simp [errs] at h
  | error es => exact ⟨es, rfl, h⟩

/-! ### String and field-validator lemmas -/

theorem string_length_eq_zero {s : String} : s.length = 0 ↔ s = "" := by
  cases s with
  | mk l =>
    constructor
    · intro h
      have hl : l = [] := List.length_eq_zero.mp h
      rw [hl]
    · intro h
      rw [h]
      rfl

theorem validateNonEmptyStr_ok (p : String) {s : String} (h : s ≠ "") :
    validateNonEmptyStr p (.str s) = .ok s := by
  simp [validateNonEmptyStr, string_length_eq_zero, h]

theorem validateNonEmptyStr_eq_ok {p t : String} {j : Json}
    (h : validateNonEmptyStr p j = .ok t) : j = .str t ∧ t ≠ "" := by
  cases j with
  | str s =>
    simp only [validateNonEmptyStr] at h
    by_cases h0 : s.length = 0
    · rw [if_pos h0] at h
      exact absurd h (by simp)
    · rw [if_neg h0] at h
      injection h with h'
      subst h'
      exact ⟨rfl, fun hs => h0 (string_length_eq_zero.mpr hs)⟩
  | null => simp [validateNonEmptyStr] at h
  | bool b => simp [validateNonEmptyStr] at h
  | num n => simp [validateNonEmptyStr] at h
  | arr a => simp [validateNonEmptyStr] at h
  | obj o => simp [validateNonEmptyStr] at h

theorem validateReqNonEmptyStr_eq_ok {p t : String} {o : Option Json}
    (h : validateReqNonEmptyStr p o = .ok t) : o = some (.str t) ∧ t ≠ "" := by
  cases o with
  | none => simp [validateReqNonEmptyStr] at h
  | some v =>
    have := validateNonEmptyStr_eq_ok (p := p) (t := t) (j := v) h
    exact ⟨by rw [this.1], this.2⟩

theorem validateBuildNumber_ofNat (p : String) (n : Nat) :
    validateBuildNumber p (some (.num (Int.ofNat n))) = .ok n := by
  have h : ¬(Int.ofNat n < 0) := by
    rw [Int.ofNat_eq_natCast]
    omega
  simp [validateBuildNumber, h]

theorem validateBuildNumber_neg (p : String) {n : Int} (h : n < 0) :
    validateBuildNumber p (some (.num n)) = .error [.negativeInt p n] := by
  simp [validateBuildNumber, h]

/-! ### URL parsing lemmas -/

theorem takeWhile_append_of_all {p : Char → Bool} {l₁ : List Char}
    (l₂ : List Char) (h : ∀ c ∈ l₁, p c) :
    (l₁ ++ l₂).takeWhile p = l₁ ++ l₂.takeWhile p := by
  induction l₁ with
  | nil => rfl
  | cons a l ih =>
    simp only [List.cons_append, List.takeWhile_cons,
      h a (List.mem_cons_self a l), List.cons.injEq, true_and, if_true]
    exact ih (fun c hc => h c (List.mem_cons_of_mem a hc))

theorem dropWhile_append_of_all {p : Char → Bool} {l₁ : List Char}
    (l₂ : List Char) (h : ∀ c ∈ l₁, p c) :
    (l₁ ++ l₂).dropWhile p = l₂.dropWhile p := by
  induction l₁ with
  | nil => rfl
  | cons a l ih =>
    simp only [List.cons_append, List.dropWhile_cons,
      h a (List.mem_cons_self a l), if_true]
    exact ih (fun c hc => h c (List.mem_cons_of_mem a hc))

theorem data_ne_nil_of_ne_empty {s : String} (h : s ≠ "") : s.data ≠ [] := by
  intro hd
  apply h
  cases s with
  | mk l => rw [show l = [] from hd]

theorem parseUrl_scheme_rest (sch rest : String)
    (ha : ∀ c ∈ sch.data, Char.isAlpha c)
    (hne : sch ≠ "") (hlow : sch.data.map Char.toLower = sch.data)
    (hr : rest ≠ "") :
    parseUrl (sch ++ "://" ++ rest) = some (sch, rest) := by
  have hdata : (sch ++ "://" ++ rest).data =
      sch.data ++ (':' :: '/' :: '/' :: rest.data) := by
    rw [String.data_append, String.data_append, List.append_assoc]
    rfl
  unfold parseUrl parseUrlChars
  rw [hdata, takeWhile_append_of_all _ ha, dropWhile_append_of_all _ ha]
  have h1 : (':' :: '/' :: '/' :: rest.data).takeWhile (fun c => c.isAlpha) = [] := rfl
  have h2 : (':' :: '/' :: '/' :: rest.data).dropWhile (fun c => c.isAlpha) =
      ':' :: '/' :: '/' :: rest.data := rfl
  rw [h1, h2, List.append_nil]
  have h3 : sch.data.isEmpty = false :=
    List.isEmpty_eq_false.mpr (data_ne_nil_of_ne_empty hne)
  have h4 : rest.data.isEmpty = false :=
    List.isEmpty_eq_false.mpr (data_ne_nil_of_ne_empty hr)
  simp only [h3, h4, Bool.false_eq_true, or_self, if_false, hlow]

theorem scheme_facts {sch : String} (h : sch ∈ condaAllowedSchemes) :
    (∀ c ∈ sch.data, Char.isAlpha c) ∧ sch ≠ "" ∧
    sch.data.map Char.toLower = sch.data := by
  simp only [condaAllowedSchemes, List.mem_cons, List.mem_singleton,
    List.not_mem_nil, or_false] at h
  rcases h with h | h | h <;> rw [h] <;> exact ⟨by decide, by decide, by decide⟩

theorem parseUrl_serializeUrl {u : CondaUrl} (h : u.wf) :
    parseUrl (serializeUrl u) = some (u.scheme, u.rest) := by
  obtain ⟨hmem, hr⟩ := h
  obtain ⟨ha, hne, hlow⟩ := scheme_facts hmem
  exact parseUrl_scheme_rest u.scheme u.rest ha hne hlow hr

theorem validateCondaUrl_serialize {u : CondaUrl} (h : u.wf) (p : String) :
    validateCondaUrl p (.str (serializeUrl u)) = .ok u := by
  simp [validateCondaUrl, parseUrl_serializeUrl h, h.1]

/-! ### Round-trip lemmas: validating a serialized value -/

theorem validateCondaUrlList_serialize {us : List CondaUrl}
    (h : ∀ u ∈ us, u.wf) (p : String) (i : Nat) :
    validateCondaUrlList p i (us.map (fun u => Json.str (serializeUrl u))) =
      .ok us := by
  induction us generalizing i with
  | nil => rfl
  | cons u rest ih =>
    have h₁ := validateCondaUrl_serialize (h u (List.mem_cons_self u rest))
      (joinPath p (toString i))
    have h₂ := ih (fun v hv => h v (List.mem_cons_of_mem u hv)) (i + 1)
    simp [validateCondaUrlList, h₁, h₂, Except.map, vap]

theorem validateNonEmptyStrList_serialize {l : List String}
    (h : ∀ s ∈ l, s ≠ "") (p : String) (i : Nat) :
    validateNonEmptyStrList p i (l.map (fun s => Json.str s)) = .ok l := by
  induction l generalizing i with
  | nil => rfl
  | cons s rest ih =>
    have h₁ := validateNonEmptyStr_ok (joinPath p (toString i))
      (h s (List.mem_cons_self s rest))
    have h₂ := ih (fun v hv => h v (List.mem_cons_of_mem s hv)) (i + 1)
    simp [validateNonEmptyStrList, h₁, h₂, Except.map, vap]

theorem validateOptNonEmptyStr_serialize {o : Option String}
    (h : ∀ s ∈ o, s ≠ "") (p : String) :
    validateOptNonEmptyStr p (some (serializeOptStr o)) = .ok o := by
  cases o with
  | none => rfl
  | some s =>
    simp [serializeOptStr, validateOptNonEmptyStr,
      validateNonEmptyStr_ok p (h s rfl), Except.map]

theorem validateOptStrList_serialize {o : Option (List String)}
    (h : ∀ l ∈ o, ∀ s ∈ l, s ≠ "") (p : String) :
    validateOptStrList p (some (serializeOptStrList o)) = .ok o := by
  cases o with
  | none => rfl
  | some l =>
    simp [serializeOptStrList, validateOptStrList,
      validateNonEmptyStrList_serialize (h l rfl) p 0, Except.map]

theorem validateCondaPackageMetadata_serialize {m : CondaPackageMetadata}
    (h : m.wf) (p : String) :
    validateCondaPackageMetadata p (serializeCondaPackageMetadata m) = .ok m := by
  obtain ⟨h₁, h₂, h₃, h₄, h₅, h₆, h₇, h₈⟩ := h
  have e₁ : validateReqNonEmptyStr (joinPath p "name")
      ((serializeCondaPackageMetadata m).getField "name") = .ok m.name := by
    show validateReqNonEmptyStr _ (some (.str m.name)) = _
    simp [validateReqNonEmptyStr, validateNonEmptyStr_ok _ h₁]
  have e₂ : validateReqNonEmptyStr (joinPath p "version")
      ((serializeCondaPackageMetadata m).getField "version") = .ok m.version := by
    show validateReqNonEmptyStr _ (some (.str m.version)) = _
    simp [validateReqNonEmptyStr, validateNonEmptyStr_ok _ h₂]
  have e₃ : validateReqNonEmptyStr (joinPath p "build")
      ((serializeCondaPackageMetadata m).getField "build") = .ok m.build := by
    show validateReqNonEmptyStr _ (some (.str m.build)) = _
    simp [validateReqNonEmptyStr, validateNonEmptyStr_ok _ h₃]
  have e₄ : validateBuildNumber (joinPath p "buildNumber")
      ((serializeCondaPackageMetadata m).getField "buildNumber") =
      .ok m.buildNumber := by
    show validateBuildNumber _ (some (.num (Int.ofNat m.buildNumber))) = _
    exact validateBuildNumber_ofNat _ m.buildNumber
  have e₅ : validateReqNonEmptyStr (joinPath p "subdir")
      ((serializeCondaPackageMetadata m).getField "subdir") = .ok m.subdir := by
    show validateReqNonEmptyStr _ (some (.str m.subdir)) = _
    simp [validateReqNonEmptyStr, validateNonEmptyStr_ok _ h₄]
  have e₆ : validateOptStrList (joinPath p "depends")
      ((serializeCondaPackageMetadata m).getField "depends") = .ok m.depends := by
    show validateOptStrList _ (some (serializeOptStrList m.depends)) = _
    exact validateOptStrList_serialize h₅ _
  have e₇ : validateOptStrList (joinPath p "constrains")
      ((serializeCondaPackageMetadata m).getField "constrains") =
      .ok m.constrains := by
    show validateOptStrList _ (some (serializeOptStrList m.constrains)) = _
    exact validateOptStrList_serialize h₆ _
  have e₈ : validateOptNonEmptyStr (joinPath p "license")
      ((serializeCondaPackageMetadata m).getField "license") = .ok m.license := by
    show validateOptNonEmptyStr _ (some (serializeOptStr m.license)) = _
    exact validateOptNonEmptyStr_serialize h₇ _
  have e₉ : validateOptNonEmptyStr (joinPath p "licenseFamily")
      ((serializeCondaPackageMetadata m).getField "licenseFamily") =
      .ok m.licenseFamily := by
    show validateOptNonEmptyStr _ (some (serializeOptStr m.licenseFamily)) = _
    exact validateOptNonEmptyStr_serialize h₈ _
  show vap (vap (vap (vap (vap (vap (vap (vap
      ((validateReqNonEmptyStr (joinPath p "name")
        ((serializeCondaPackageMetadata m).getField "name")).map
        CondaPackageMetadata.mk)
      (validateReqNonEmptyStr (joinPath p "version")
        ((serializeCondaPackageMetadata m).getField "version")))
      (validateReqNonEmptyStr (joinPath p "build")
        ((serializeCondaPackageMetadata m).getField "build")))
      (validateBuildNumber (joinPath p "buildNumber")
        ((serializeCondaPackageMetadata m).getField "buildNumber")))
      (validateReqNonEmptyStr (joinPath p "subdir")
        ((serializeCondaPackageMetadata m).getField "subdir")))
      (validateOptStrList (joinPath p "depends")
        ((serializeCondaPackageMetadata m).getField "depends")))
      (validateOptStrList (joinPath p "constrains")
        ((serializeCondaPackageMetadata m).getField "constrains")))
      (validateOptNonEmptyStr (joinPath p "license")
        ((serializeCondaPackageMetadata m).getField "license")))
      (validateOptNonEmptyStr (joinPath p "licenseFamily")
        ((serializeCondaPackageMetadata m).getField "licenseFamily")) = .ok m
  rw [e₁, e₂, e₃, e₄, e₅, e₆, e₇, e₈, e₉]
  rfl

theorem validatePackagesList_serialize {ms : List CondaPackageMetadata}
    (h : ∀ m ∈ ms, m.wf) (p : String) (i : Nat) :
    validatePackagesList p i (ms.map serializeCondaPackageMetadata) = .ok ms := by
  induction ms generalizing i with
  | nil => rfl
  | cons m rest ih =>
    have h₁ := validateCondaPackageMetadata_serialize
      (h m (List.mem_cons_self m rest)) (joinPath p (toString i))
    have h₂ := ih (fun v hv => h v (List.mem_cons_of_mem m hv)) (i + 1)
    simp [validatePackagesList, h₁, h₂, Except.map, vap]

theorem validateCondaMetadataResult_serialize {r : CondaMetadataResult}
    (h : r.wf) :
    validateCondaMetadataResult (serializeCondaMetadataResult r) = .ok r := by
  have h₁ := validatePackagesList_serialize h "packages" 0
  show (validatePackagesList "packages" 0
      (r.packages.map serializeCondaPackageMetadata)).map
      (fun ps => CondaMetadataResult.mk ps) = .ok r
  rw [h₁]
  rfl

theorem validateCondaMetadataParams_serialize {p : CondaMetadataParams}
    (h : p.wf) {us : List CondaUrl} (hus : p.channelBaseUrls = some us) :
    validateCondaMetadataParams (serializeCondaMetadataParams p) = .ok p := by
  obtain ⟨h₁, h₂⟩ := h
  have e₁ : validateOptNonEmptyStr "targetPlatform"
      ((serializeCondaMetadataParams p).getField "targetPlatform") =
      .ok p.targetPlatform := by
    show validateOptNonEmptyStr _ (some (serializeOptStr p.targetPlatform)) = _
    exact validateOptNonEmptyStr_serialize h₁ _
  have e₂ : validateChannelBaseUrls
      ((serializeCondaMetadataParams p).getField "channelBaseUrls") =
      .ok p.channelBaseUrls := by
    have hg : (serializeCondaMetadataParams p).getField "channelBaseUrls" =
        some (.arr (us.map (fun u => Json.str (serializeUrl u)))) := by
      simp [serializeCondaMetadataParams, Json.getField, hus]
    rw [hg, hus]
    simp [validateChannelBaseUrls,
      validateCondaUrlList_serialize (h₂ us hus) "channelBaseUrls" 0, Except.map]
  show vap ((validateOptNonEmptyStr "targetPlatform"
      ((serializeCondaMetadataParams p).getField "targetPlatform")).map
      (fun tp uss => CondaMetadataParams.mk tp uss))
      (validateChannelBaseUrls
        ((serializeCondaMetadataParams p).getField "channelBaseUrls")) = .ok p
  rw [e₁, e₂]
  rfl

/-! ### Extraction lemmas: what a successful validation implies -/

theorem validateCondaPackageMetadata_ok_parts {path : String} {j : Json}
    {r : CondaPackageMetadata}
    (h : validateCondaPackageMetadata path j = .ok r) :
    j.isObj = true ∧
    validateReqNonEmptyStr (joinPath path "name") (j.getField "name") =
      .ok r.name ∧
    validateReqNonEmptyStr (joinPath path "version") (j.getField "version") =
      .ok r.version ∧
    validateReqNonEmptyStr (joinPath path "build") (j.getField "build") =
      .ok r.build ∧
    validateBuildNumber (joinPath path "buildNumber")
      (j.getField "buildNumber") = .ok r.buildNumber ∧
    validateReqNonEmptyStr (joinPath path "subdir") (j.getField "subdir") =
      .ok r.subdir := by
  cases j with
  | obj kvs =>
    obtain ⟨g₈, v₉, h₈, hv₉, hr⟩ := vap_eq_ok h
    obtain ⟨g₇, v₈, h₇, hv₈, hg₈⟩ := vap_eq_ok h₈
    obtain ⟨g₆, v₇, h₆, hv₇, hg₇⟩ := vap_eq_ok h₇
    obtain ⟨g₅, v₆, h₅, hv₆, hg₆⟩ := vap_eq_ok h₆
    obtain ⟨g₄, v₅, h₄, hv₅, hg₅⟩ := vap_eq_ok h₅
    obtain ⟨g₃, v₄, h₃, hv₄, hg₄⟩ := vap_eq_ok h₄
    obtain ⟨g₂, v₃, h₂, hv₃, hg₃⟩ := vap_eq_ok h₃
    obtain ⟨g₁, v₂, h₁, hv₂, hg₂⟩ := vap_eq_ok h₂
    obtain ⟨v₁, hv₁, hg₁⟩ := map_eq_ok h₁
    subst hg₁; subst hg₂; subst hg₃; subst hg₄; subst hg₅
    subst hg₆; subst hg₇; subst hg₈; subst hr
    exact ⟨rfl, hv₁, hv₂, hv₃, hv₄, hv₅⟩
  | null => simp [validateCondaPackageMetadata] at h
  | bool b => simp [validateCondaPackageMetadata] at h
  | num n => simp [validateCondaPackageMetadata] at h
  | str s => simp [validateCondaPackageMetadata] at h
  | arr a => simp [validateCondaPackageMetadata] at h

theorem validateCondaMetadataParams_ok_parts {j : Json}
    {r : CondaMetadataParams} (h : validateCondaMetadataParams j = .ok r) :
    j.isObj = true ∧
    validateOptNonEmptyStr "targetPlatform" (j.getField "targetPlatform") =
      .ok r.targetPlatform ∧
    validateChannelBaseUrls (j.getField "channelBaseUrls") =
      .ok r.channelBaseUrls := by
  cases j with
  | obj kvs =>
    obtain ⟨g₁, v₂, h₁, hv₂, hr⟩ := vap_eq_ok h
    obtain ⟨v₁, hv₁, hg₁⟩ := map_eq_ok h₁
    subst hg₁; subst hr
    exact ⟨rfl, hv₁, hv₂⟩
  | null => simp [validateCondaMetadataParams] at h
  | bool b => simp [validateCondaMetadataParams] at h
  | num n => simp [validateCondaMetadataParams] at h
  | str s => simp [validateCondaMetadataParams] at h
  | arr a => simp [validateCondaMetadataParams] at h

theorem validateInitializeParams_ok_parts {fs : FileSystem} {j : Json}
    {r : InitializeParams} (h : validateInitializeParams fs j = .ok r) :
    j.isObj = true ∧
    validateSourceDir fs (j.getField "sourceDir") = .ok r.sourceDir ∧
    ∃ v, j.getField "capabilities" = some v ∧
      validateFrontendCapabilities "capabilities" v = .ok r.capabilities := by
  cases j with
  | obj kvs =>
    obtain ⟨g₁, v₂, h₁, hv₂, hr⟩ := vap_eq_ok h
    obtain ⟨v₁, hv₁, hg₁⟩ := map_eq_ok h₁
    subst hg₁; subst hr
    refine ⟨rfl, hv₁, ?_⟩
    cases hcap : (Json.obj kvs).getField "capabilities" with
    | none => rw [hcap] at hv₂; simp at hv₂
    | some v => rw [hcap] at hv₂; exact ⟨v, rfl, hv₂⟩
  | null => simp [validateInitializeParams] at h
  | bool b => simp [validateInitializeParams] at h
  | num n => simp [validateInitializeParams] at h
  | str s => simp [validateInitializeParams] at h
  | arr a => simp [validateInitializeParams] at h

theorem validateCondaMetadataResult_ok_parts {j : Json}
    {r : CondaMetadataResult} (h : validateCondaMetadataResult j = .ok r) :
    j.isObj = true ∧
    ∃ js, j.getField "packages" = some (.arr js) ∧
      validatePackagesList "packages" 0 js = .ok r.packages := by
  cases j with
  | obj kvs =>
    refine ⟨rfl, ?_⟩
    cases hp : (Json.obj kvs).getField "packages" with
    | none =>
      rw [show validateCondaMetadataResult (Json.obj kvs) =
        (match (Json.obj kvs).getField "packages" with
         | none => .error [.missingField "packages"]
         | some (.arr js) => (validatePackagesList "packages" 0 js).map
            (fun ps => CondaMetadataResult.mk ps)
         | some _ => .error [.notAList "packages"]) from rfl, hp] at h
      simp at h
    | some v =>
      rw [show validateCondaMetadataResult (Json.obj kvs) =
        (match (Json.obj kvs).getField "packages" with
         | none => .error [.missingField "packages"]
         | some (.arr js) => (validatePackagesList "packages" 0 js).map
            (fun ps => CondaMetadataResult.mk ps)
         | some _ => .error [.notAList "packages"]) from rfl, hp] at h
      cases v with
      | arr js =>
        obtain ⟨ps, hps, hrr⟩ := map_eq_ok h
        refine ⟨js, rfl, ?_⟩
        rw [hps, hrr]
      | null => simp at h
      | bool b => simp at h
      | num n => simp at h
      | str s => simp at h
      | obj o => simp at h
  | null => simp [validateCondaMetadataResult] at h
  | bool b => simp [validateCondaMetadataResult] at h
  | num n => simp [validateCondaMetadataResult] at h
  | str s => simp [validateCondaMetadataResult] at h
  | arr a => simp [validateCondaMetadataResult] at h

theorem validateSourceDir_eq_ok {fs : FileSystem} {o : Option Json}
    {s : String} (h : validateSourceDir fs o = .ok s) :
    o = some (.str s) ∧ fs s = PathKind.directory := by
  cases o with
  | none => simp [validateSourceDir] at h
  | some v =>
    cases v with
    | str t =>
      simp only [validateSourceDir] at h
      by_cases hd : fs t = PathKind.directory
      · rw [if_pos hd] at h
        injection h with h'
        subst h'
        exact ⟨rfl, hd⟩
      · rw [if_neg hd] at h
        exact absurd h (by simp)
    | null => simp [validateSourceDir] at h
    | bool b => simp [validateSourceDir] at h
    | num n => simp [validateSourceDir] at h
    | arr a => simp [validateSourceDir] at h
    | obj o => simp [validateSourceDir] at h

/-! ### Error-propagation lemmas: a failing field's diagnostic appears in
the record's accumulated error list -/

theorem mem_errs_package_name {path : String} {kvs : List (String × Json)}
    {e : ValidationError}
    (h : e ∈ errs (validateReqNonEmptyStr (joinPath path "name")
      ((Json.obj kvs).getField "name"))) :
    e ∈ errs (validateCondaPackageMetadata path (.obj kvs)) := by
  simp only [validateCondaPackageMetadata]
  apply mem_errs_vap_left
  apply mem_errs_vap_left
  apply mem_errs_vap_left
  apply mem_errs_vap_left
  apply mem_errs_vap_left
  apply mem_errs_vap_left
  apply mem_errs_vap_left
  apply mem_errs_vap_left
  rw [errs_map]
  exact h

theorem mem_errs_package_version {path : String} {kvs : List (String × Json)}
    {e : ValidationError}
    (h : e ∈ errs (validateReqNonEmptyStr (joinPath path "version")
      ((Json.obj kvs).getField "version"))) :
    e ∈ errs (validateCondaPackageMetadata path (.obj kvs)) := by
  simp only [validateCondaPackageMetadata]
  apply mem_errs_vap_left
  apply mem_errs_vap_left
  apply mem_errs_vap_left
  apply mem_errs_vap_left
  apply mem_errs_vap_left
  apply mem_errs_vap_left
  apply mem_errs_vap_left
  exact mem_errs_vap_right h

theorem mem_errs_package_build {path : String} {kvs : List (String × Json)}
    {e : ValidationError}
    (h : e ∈ errs (validateReqNonEmptyStr (joinPath path "build")
      ((Json.obj kvs).getField "build"))) :
    e ∈ errs (validateCondaPackageMetadata path (.obj kvs)) := by
  simp only [validateCondaPackageMetadata]
  apply mem_errs_vap_left
  apply mem_errs_vap_left
  apply mem_errs_vap_left
  apply mem_errs_vap_left
  apply mem_errs_vap_left
  apply mem_errs_vap_left
  exact mem_errs_vap_right h

theorem mem_errs_package_buildNumber {path : String}
    {kvs : List (String × Json)} {e : ValidationError}
    (h : e ∈ errs (validateBuildNumber (joinPath path "buildNumber")
      ((Json.obj kvs).getField "buildNumber"))) :
    e ∈ errs (validateCondaPackageMetadata path (.obj kvs)) := by
  simp only [validateCondaPackageMetadata]
  apply mem_errs_vap_left
  apply mem_errs_vap_left
  apply mem_errs_vap_left
  apply mem_errs_vap_left
  apply mem_errs_vap_left
  exact mem_errs_vap_right h

theorem mem_errs_package_subdir {path : String} {kvs : List (String × Json)}
    {e : ValidationError}
    (h : e ∈ errs (validateReqNonEmptyStr (joinPath path "subdir")
      ((Json.obj kvs).getField "subdir"))) :
    e ∈ errs (validateCondaPackageMetadata path (.obj kvs)) := by
  simp only [validateCondaPackageMetadata]
  apply mem_errs_vap_left
  apply mem_errs_vap_left
  apply mem_errs_vap_left
  apply mem_errs_vap_left
  exact mem_errs_vap_right h

theorem mem_errs_params_channelBaseUrls {kvs : List (String × Json)}
    {e : ValidationError}
    (h : e ∈ errs (validateChannelBaseUrls
      ((Json.obj kvs).getField "channelBaseUrls"))) :
    e ∈ errs (validateCondaMetadataParams (.obj kvs)) := by
  simp only [validateCondaMetadataParams]
  exact mem_errs_vap_right h

theorem mem_errs_initParams_sourceDir {fs : FileSystem}
    {kvs : List (String × Json)} {e : ValidationError}
    (h : e ∈ errs (validateSourceDir fs ((Json.obj kvs).getField "sourceDir"))) :
    e ∈ errs (validateInitializeParams fs (.obj kvs)) := by
  simp only [validateInitializeParams]
  apply mem_errs_vap_left
  rw [errs_map]
  exact h

theorem mem_errs_initParams_capabilities {fs : FileSystem}
    {kvs : List (String × Json)} {e : ValidationError}
    (h : e ∈ errs (match (Json.obj kvs).getField "capabilities" with
      | none => (.error [.missingField "capabilities"] : V FrontendCapabilities)
      | some v => validateFrontendCapabilities "capabilities" v)) :
    e ∈ errs (validateInitializeParams fs (.obj kvs)) := by
  simp only [validateInitializeParams]
  exact mem_errs_vap_right h

theorem mem_errs_urlList {js : List Json} {i : Nat} {s scheme rest : String}
    (hg : js[i]? = some (.str s)) (hp : parseUrl s = some (scheme, rest))
    (hs : scheme ∉ condaAllowedSchemes) (p : String) (k : Nat) :
    ValidationError.urlSchemeNotAllowed (joinPath p (toString (k + i))) scheme
      ∈ errs (validateCondaUrlList p k js) := by
  induction js generalizing i k with
  | nil => simp at hg
  | cons j tail ih =>
    cases i with
    | zero =>
      have hj : j = .str s := by simpa using hg
      subst hj
      rw [Nat.add_zero]
      simp only [validateCondaUrlList]
      apply mem_errs_vap_left
      rw [errs_map]
      simp [validateCondaUrl, hp, hs, errs]
    | succ n =>
      have hg' : tail[n]? = some (.str s) := by simpa using hg
      have harith : k + (n + 1) = (k + 1) + n := by omega
      rw [harith]
      simp only [validateCondaUrlList]
      exact mem_errs_vap_right (ih hg' (k + 1))

theorem validateCondaUrl_ok_iff {p s : String} :
    (∃ u, validateCondaUrl p (.str s) = .ok u) ↔
    (∃ scheme rest, parseUrl s = some (scheme, rest) ∧
      scheme ∈ condaAllowedSchemes) := by
  constructor
  · rintro ⟨u, hu⟩
    cases hpu : parseUrl s with
    | none =>
      rw [show validateCondaUrl p (.str s) = .error [.invalidUrl p s] by
        simp [validateCondaUrl, hpu]] at hu
      exact absurd hu (by simp)
    | some pr =>
      obtain ⟨scheme, rest⟩ := pr
      by_cases hm : scheme ∈ condaAllowedSchemes
      · exact ⟨scheme, rest, rfl, hm⟩
      · rw [show validateCondaUrl p (.str s) =
            .error [.urlSchemeNotAllowed p scheme] by
          simp [validateCondaUrl, hpu, hm]] at hu
        exact absurd hu (by simp)
  · rintro ⟨scheme, rest, hpu, hm⟩
    exact ⟨⟨scheme, rest⟩, by simp [validateCondaUrl, hpu, hm]⟩

/-! ### Claim theorems -/

/-- C1: an entry of `channelBaseUrls` is accepted if and only if it
parses as a URL whose scheme is one of http, https, file; an entry of
any other scheme yields the diagnostic `urlSchemeNotAllowed` carrying
the entry's indexed field path and its scheme, and that diagnostic makes
validation of the whole `CondaMetadataParams` payload fail. -/
theorem C1_url_scheme_restriction :
    (∀ p s, (∃ u, validateCondaUrl p (.str s) = .ok u) ↔
      (∃ scheme rest, parseUrl s = some (scheme, rest) ∧
        scheme ∈ condaAllowedSchemes)) ∧
    (∀ p s scheme rest, parseUrl s = some (scheme, rest) →
      scheme ∉ condaAllowedSchemes →
      validateCondaUrl p (.str s) = .error [.urlSchemeNotAllowed p scheme]) ∧
    (∀ (kvs : List (String × Json)) (js : List Json) (i : Nat)
       (s scheme rest : String),
      (Json.obj kvs).getField "channelBaseUrls" = some (.arr js) →
      js[i]? = some (.str s) →
      parseUrl s = some (scheme, rest) →
      scheme ∉ condaAllowedSchemes →
      ∃ es, validateCondaMetadataParams (.obj kvs) = .error es ∧
        ValidationError.urlSchemeNotAllowed
          (joinPath "channelBaseUrls" (toString i)) scheme ∈ es) := by
  refine ⟨fun p s => validateCondaUrl_ok_iff, ?_, ?_⟩
  · intro p s scheme rest hp hs
    simp [validateCondaUrl, hp, hs]
  · intro kvs js i s scheme rest hg hi hp hs
    have h₁ := mem_errs_urlList hi hp hs "channelBaseUrls" 0
    rw [Nat.zero_add] at h₁
    have h₂ : ValidationError.urlSchemeNotAllowed
        (joinPath "channelBaseUrls" (toString i)) scheme
        ∈ errs (validateChannelBaseUrls
          ((Json.obj kvs).getField "channelBaseUrls")) := by
      rw [hg]
      simp only [validateChannelBaseUrls]
      rw [errs_map]
      exact h₁
    exact eq_error_of_mem_errs (mem_errs_params_channelBaseUrls h₂)

/-- C1 witness: the `ftp://x/y` entry of the spec is rejected with a
diagnostic naming entry 0 and scheme `ftp`, an `https` entry is
accepted, and a payload carrying the `ftp` entry fails whole-payload
validation with that diagnostic. -/
theorem C1_url_scheme_restriction_witness :
    validateCondaUrl "channelBaseUrls.0" (.str "ftp://x/y") =
      .error [.urlSchemeNotAllowed "channelBaseUrls.0" "ftp"] ∧
    (∃ u, validateCondaUrl "channelBaseUrls.0"
      (.str "https://repo.example/conda-forge") = .ok u) ∧
    (∃ es, validateCondaMetadataParams
        (.obj [("channelBaseUrls", .arr [.str "ftp://x/y"])]) = .error es ∧
      ValidationError.urlSchemeNotAllowed "channelBaseUrls.0" "ftp" ∈ es) := by
  refine ⟨?_, ?_, ?_⟩
  · exact C1_url_scheme_restriction.2.1 "channelBaseUrls.0" "ftp://x/y"
      "ftp" "x/y" (by decide) (by decide)
  · exact C1_url_scheme_restriction.1 "channelBaseUrls.0"
      "https://repo.example/conda-forge" |>.mpr
      ⟨"https", "repo.example/conda-forge", by decide, by decide⟩
  · have := C1_url_scheme_restriction.2.2
      [("channelBaseUrls", .arr [.str "ftp://x/y"])] [.str "ftp://x/y"] 0
      "ftp://x/y" "ftp" "x/y" rfl rfl (by decide) (by decide)
    simpa [joinPath] using this

/-- C2 counterexample: the value obtained by validating a payload that
omits `channelBaseUrls` is a valid `CondaMetadataParams` (the field
holds the unvalidated default `none`), but serializing it emits
`channelBaseUrls: null`, which re-validation rejects with a list-type
error instead of reproducing the value. -/
theorem C2_roundtrip_counterexample :
    validateCondaMetadataParams (Json.obj []) =
      .ok (CondaMetadataParams.mk none none) ∧
    validateCondaMetadataParams
        (serializeCondaMetadataParams (CondaMetadataParams.mk none none)) =
      .error [.notAList "channelBaseUrls"] ∧
    (Except.error [ValidationError.notAList "channelBaseUrls"] ≠
      (.ok (CondaMetadataParams.mk none none) : V CondaMetadataParams)) :=
  ⟨rfl, rfl, fun h => Except.noConfusion h⟩

/-- C2 (amended): the serialize→validate→deserialize round trip is the
identity for every well-formed `CondaMetadataParams` whose
`channelBaseUrls` field is present (order of the URL list preserved),
and for every well-formed `CondaMetadataResult` unconditionally; a
params value carrying the absent-field default `none` breaks the round
trip, since it serializes to `null` which fails list validation. -/
theorem C2_roundtrip_amended :
    (∀ (p : CondaMetadataParams) (us : List CondaUrl), p.wf →
      p.channelBaseUrls = some us →
      validateCondaMetadataParams (serializeCondaMetadataParams p) = .ok p) ∧
    (∀ r : CondaMetadataResult, r.wf →
      validateCondaMetadataResult (serializeCondaMetadataResult r) = .ok r) :=
  ⟨fun _ _ hwf hus => validateCondaMetadataParams_serialize hwf hus,
   fun _ hwf => validateCondaMetadataResult_serialize hwf⟩

/-- C2 witness: the round trip reproduces a concrete params value with
two channel URLs in order, and the end-to-end example result of the
spec. -/
theorem C2_roundtrip_amended_witness :
    validateCondaMetadataParams (serializeCondaMetadataParams
      (CondaMetadataParams.mk (some "linux-64")
        (some [CondaUrl.mk "https" "repo.example/conda-forge",
               CondaUrl.mk "file" "tmp/local-channel"]))) =
      .ok (CondaMetadataParams.mk (some "linux-64")
        (some [CondaUrl.mk "https" "repo.example/conda-forge",
               CondaUrl.mk "file" "tmp/local-channel"])) ∧
    validateCondaMetadataResult (serializeCondaMetadataResult
      (CondaMetadataResult.mk [CondaPackageMetadata.mk "foo" "1.0" "py_0" 0
        "linux-64" none none none none])) =
      .ok (CondaMetadataResult.mk [CondaPackageMetadata.mk "foo" "1.0" "py_0" 0
        "linux-64" none none none none]) :=
  ⟨C2_roundtrip_amended.1 _ _ (by decide) rfl,
   C2_roundtrip_amended.2 _ (by decide)⟩

/-- C3: validation of `InitializeParams` checks synchronously, against
the ambient filesystem, that `sourceDir` is an existing directory — a
payload whose `sourceDir` is missing or not a directory fails with a
path diagnostic, a payload whose `sourceDir` is a directory (other
fields valid) succeeds, and a payload failing validation is answered
with the validation error by the dispatch layer without the handler
ever being consulted. -/
theorem C3_sourceDir_directory_check :
    (∀ (fs : FileSystem) (kvs : List (String × Json)) (s : String),
      (Json.obj kvs).getField "sourceDir" = some (.str s) →
      fs s ≠ PathKind.directory →
      ∃ es, validateInitializeParams fs (.obj kvs) = .error es ∧
        ValidationError.pathNotADirectory "sourceDir" s ∈ es) ∧
    (∀ (fs : FileSystem) (s : String), fs s = PathKind.directory →
      validateInitializeParams fs
        (Json.obj [("sourceDir", .str s), ("capabilities", .obj [])]) =
        .ok (InitializeParams.mk s ⟨⟩)) ∧
    (∀ (fs : FileSystem) (j : Json) (es : List ValidationError)
       (handler : InitializeParams → InitializeResult),
      validateInitializeParams fs j = .error es →
      dispatchInitialize fs .uninitialized j handler =
        .error (.validation es)) := by
  refine ⟨?_, ?_, ?_⟩
  · intro fs kvs s hg hd
    apply eq_error_of_mem_errs
    apply mem_errs_initParams_sourceDir
    rw [hg]
    simp [validateSourceDir, hd, errs]
  · intro fs s hd
    have hsd : validateSourceDir fs (some (.str s)) = .ok s := by
      simp [validateSourceDir, hd]
    show vap ((validateSourceDir fs (some (.str s))).map
        (fun d c => InitializeParams.mk d c))
      (validateFrontendCapabilities "capabilities" (.obj [])) =
      .ok (InitializeParams.mk s ⟨⟩)
    rw [hsd]
    rfl
  · intro fs j es handler hval
    simp [dispatchInitialize, hval]

/-- C3 witness: a missing path fails with the path diagnostic, an
existing directory passes, and dispatch surfaces a failed validation as
a validation error without running the handler. -/
theorem C3_sourceDir_directory_check_witness :
    (∃ es, validateInitializeParams (fun _ => PathKind.missing)
        (.obj [("sourceDir", .str "/no/such/dir"), ("capabilities", .obj [])]) =
        .error es ∧
      ValidationError.pathNotADirectory "sourceDir" "/no/such/dir" ∈ es) ∧
    validateInitializeParams (fun _ => PathKind.directory)
      (Json.obj [("sourceDir", .str "/src"), ("capabilities", .obj [])]) =
      .ok (InitializeParams.mk "/src" ⟨⟩) ∧
    dispatchInitialize (fun _ => PathKind.file) .uninitialized
      (.obj [("sourceDir", .str "/src"), ("capabilities", .obj [])])
      (fun _ => InitializeResult.mk ⟨none⟩) =
      .error (.validation [.pathNotADirectory "sourceDir" "/src"]) :=
  ⟨C3_sourceDir_directory_check.1 (fun _ => PathKind.missing) _ "/no/such/dir"
      rfl (by decide),
   C3_sourceDir_directory_check.2.1 (fun _ => PathKind.directory) "/src" rfl,
   C3_sourceDir_directory_check.2.2 (fun _ => PathKind.file) _ _ _ rfl⟩

/-- C4: a `condaMetadata` call in an uninitialized session and a second
`initialize` call in an initialized session are both rejected with a
sequencing error, whatever the payload (so in particular for payloads
that validate on their own), and a sequencing error is never equal to a
payload-validation error. -/
theorem C4_sequencing_errors :
    (∀ (j : Json) (handler : CondaMetadataParams → CondaMetadataResult),
      dispatchCondaMetadata .uninitialized j handler =
        .error (.sequencing "condaMetadata before initialize")) ∧
    (∀ (fs : FileSystem) (j : Json)
       (handler : InitializeParams → InitializeResult),
      dispatchInitialize fs .initialized j handler =
        .error (.sequencing "initialize called twice")) ∧
    (∀ (m : String) (es : List ValidationError),
      RpcError.sequencing m ≠ RpcError.validation es) :=
  ⟨fun _ _ => rfl, fun _ _ _ => rfl, fun _ _ h => RpcError.noConfusion h⟩

/-- C5: `buildNumber` defaults to 0 when the field is absent,
non-negative integers are accepted as given, negative integers are
rejected with a diagnostic carrying the value; a successfully validated
`CondaPackageMetadata` always carries exactly the value this field
validator produced, so omission yields a typed value with
`buildNumber = 0`. -/
theorem C5_buildNumber_default_nonneg :
    (∀ p, validateBuildNumber p none = .ok 0) ∧
    (∀ p (n : Nat), validateBuildNumber p (some (.num (Int.ofNat n))) = .ok n) ∧
    (∀ p (n : Int), n < 0 →
      validateBuildNumber p (some (.num n)) = .error [.negativeInt p n]) ∧
    (∀ (path : String) (j : Json) (r : CondaPackageMetadata),
      validateCondaPackageMetadata path j = .ok r →
      validateBuildNumber (joinPath path "buildNumber")
        (j.getField "buildNumber") = .ok r.buildNumber) ∧
    (∀ (path : String) (j : Json) (r : CondaPackageMetadata),
      validateCondaPackageMetadata path j = .ok r →
      j.getField "buildNumber" = none → r.buildNumber = 0) := by
  refine ⟨fun _ => rfl, validateBuildNumber_ofNat,
    fun p n h => validateBuildNumber_neg p h,
    fun path j r h => (validateCondaPackageMetadata_ok_parts h).2.2.2.2.1, ?_⟩
  intro path j r h hg
  have h₄ := (validateCondaPackageMetadata_ok_parts h).2.2.2.2.1
  rw [hg] at h₄
  have h₅ : (Except.ok 0 : V Nat) = .ok r.buildNumber := h₄
  injection h₅ with h₆
  exact h₆.symm

/-- C5 witness: `buildNumber = -1` is rejected with the diagnostic, and
a concrete payload omitting the field validates to a value whose
`buildNumber` is 0. -/
theorem C5_buildNumber_witness :
    validateBuildNumber "buildNumber" (some (.num (-1))) =
      .error [.negativeInt "buildNumber" (-1)] ∧
    (CondaPackageMetadata.mk "foo" "1.0" "py_0" 0 "linux-64"
      none none none none).buildNumber = 0 :=
  ⟨C5_buildNumber_default_nonneg.2.2.1 "buildNumber" (-1) (by decide),
   C5_buildNumber_default_nonneg.2.2.2.2 ""
     (Json.obj [("name", .str "foo"), ("version", .str "1.0"),
       ("build", .str "py_0"), ("subdir", .str "linux-64")])
     (CondaPackageMetadata.mk "foo" "1.0" "py_0" 0 "linux-64"
       none none none none) rfl rfl⟩

/-- C6: every `NonEmptyStr`-typed field rejects the zero-length string
with the `emptyString` diagnostic and accepts any string of length at
least one; the empty-string diagnostic is distinct from the
missing-field diagnostic, and an empty `name` makes whole-record
validation of `CondaPackageMetadata` fail with that diagnostic. -/
theorem C6_nonEmptyStr_fields :
    (∀ p, validateNonEmptyStr p (.str "") = .error [.emptyString p]) ∧
    (∀ p (s : String), 1 ≤ s.length →
      validateNonEmptyStr p (.str s) = .ok s) ∧
    (∀ p q, ValidationError.emptyString p ≠ ValidationError.missingField q) ∧
    (∀ (path : String) (kvs : List (String × Json)),
      (Json.obj kvs).getField "name" = some (.str "") →
      ∃ es, validateCondaPackageMetadata path (.obj kvs) = .error es ∧
        ValidationError.emptyString (joinPath path "name") ∈ es) := by
  refine ⟨fun _ => rfl, ?_, fun p q h => ValidationError.noConfusion h, ?_⟩
  · intro p s h
    apply validateNonEmptyStr_ok
    intro hs
    rw [hs] at h
    exact absurd h (by decide)
  · intro path kvs hg
    apply eq_error_of_mem_errs
    apply mem_errs_package_name
    rw [hg]
    exact List.mem_singleton_self _

/-- C6 witness: a single-character string is accepted and an empty
`name` fails record validation with the empty-string diagnostic. -/
theorem C6_nonEmptyStr_fields_witness :
    validateNonEmptyStr "name" (.str "x") = .ok "x" ∧
    (∃ es, validateCondaPackageMetadata "" (.obj [("name", .str "")]) =
        .error es ∧ ValidationError.emptyString "name" ∈ es) :=
  ⟨C6_nonEmptyStr_fields.2.1 "name" "x" (by decide),
   C6_nonEmptyStr_fields.2.2.2 "" [("name", .str "")] rfl⟩

/-! ### Required-presence helpers shared by several claims -/

theorem package_ok_required_present {path : String} {j : Json}
    {r : CondaPackageMetadata}
    (h : validateCondaPackageMetadata path j = .ok r) :
    ∀ f ∈ (["name", "version", "build", "subdir"] : List String),
      ∃ v, j.getField f = some v ∧ v ≠ .null := by
  obtain ⟨-, h₁, h₂, h₃, -, h₅⟩ := validateCondaPackageMetadata_ok_parts h
  intro f hf
  simp only [List.mem_cons, List.not_mem_nil, or_false] at hf
  rcases hf with hf | hf | hf | hf <;> subst hf
  · obtain ⟨hg, -⟩ := validateReqNonEmptyStr_eq_ok h₁
    exact ⟨_, hg, fun hn => Json.noConfusion hn⟩
  · obtain ⟨hg, -⟩ := validateReqNonEmptyStr_eq_ok h₂
    exact ⟨_, hg, fun hn => Json.noConfusion hn⟩
  · obtain ⟨hg, -⟩ := validateReqNonEmptyStr_eq_ok h₃
    exact ⟨_, hg, fun hn => Json.noConfusion hn⟩
  · obtain ⟨hg, -⟩ := validateReqNonEmptyStr_eq_ok h₅
    exact ⟨_, hg, fun hn => Json.noConfusion hn⟩

theorem initParams_ok_required_present {fs : FileSystem} {j : Json}
    {r : InitializeParams} (h : validateInitializeParams fs j = .ok r) :
    (∃ v, j.getField "sourceDir" = some v ∧ v ≠ .null) ∧
    (∃ v, j.getField "capabilities" = some v ∧ v ≠ .null) := by
  obtain ⟨-, h₁, v, hv, hcap⟩ := validateInitializeParams_ok_parts h
  obtain ⟨hg, -⟩ := validateSourceDir_eq_ok h₁
  refine ⟨⟨_, hg, fun hn => Json.noConfusion hn⟩, v, hv, ?_⟩
  intro hn
  subst hn
  exact absurd hcap (by simp [validateFrontendCapabilities])

theorem result_ok_packages_present {j : Json} {r : CondaMetadataResult}
    (h : validateCondaMetadataResult j = .ok r) :
    ∃ v, j.getField "packages" = some v ∧ v ≠ .null := by
  obtain ⟨-, js, hg, -⟩ := validateCondaMetadataResult_ok_parts h
  exact ⟨_, hg, fun hn => Json.noConfusion hn⟩

/-- C7: for each of the three validated message shapes, every required
field (`sourceDir` and `capabilities` of `InitializeParams`; `name`,
`version`, `build`, `subdir` of `CondaPackageMetadata`; `packages` of
`CondaMetadataResult`) causes a failure naming the field when it is
absent, causes a failure whose diagnostic carries the field's path when
it is null, and a successful validation implies every required field
was present and non-null. -/
theorem C7_required_fields :
    (∀ (fs : FileSystem) (kvs : List (String × Json)),
      (Json.obj kvs).getField "sourceDir" = none →
      ∃ es, validateInitializeParams fs (.obj kvs) = .error es ∧
        ValidationError.missingField "sourceDir" ∈ es) ∧
    (∀ (fs : FileSystem) (kvs : List (String × Json)),
      (Json.obj kvs).getField "capabilities" = none →
      ∃ es, validateInitializeParams fs (.obj kvs) = .error es ∧
        ValidationError.missingField "capabilities" ∈ es) ∧
    (∀ (path : String) (kvs : List (String × Json)) (f : String),
      f ∈ (["name", "version", "build", "subdir"] : List String) →
      (Json.obj kvs).getField f = none →
      ∃ es, validateCondaPackageMetadata path (.obj kvs) = .error es ∧
        ValidationError.missingField (joinPath path f) ∈ es) ∧
    (∀ (kvs : List (String × Json)),
      (Json.obj kvs).getField "packages" = none →
      validateCondaMetadataResult (.obj kvs) =
        .error [.missingField "packages"]) ∧
    (∀ (fs : FileSystem) (kvs : List (String × Json)),
      (Json.obj kvs).getField "sourceDir" = some .null →
      ∃ es e, validateInitializeParams fs (.obj kvs) = .error es ∧
        e ∈ es ∧ e.path = "sourceDir") ∧
    (∀ (fs : FileSystem) (kvs : List (String × Json)),
      (Json.obj kvs).getField "capabilities" = some .null →
      ∃ es e, validateInitializeParams fs (.obj kvs) = .error es ∧
        e ∈ es ∧ e.path = "capabilities") ∧
    (∀ (path : String) (kvs : List (String × Json)) (f : String),
      f ∈ (["name", "version", "build", "subdir"] : List String) →
      (Json.obj kvs).getField f = some .null →
      ∃ es e, validateCondaPackageMetadata path (.obj kvs) = .error es ∧
        e ∈ es ∧ e.path = joinPath path f) ∧
    (∀ (kvs : List (String × Json)),
      (Json.obj kvs).getField "packages" = some .null →
      validateCondaMetadataResult (.obj kvs) = .error [.notAList "packages"]) ∧
    (∀ (fs : FileSystem) (j : Json) (r : InitializeParams),
      validateInitializeParams fs j = .ok r →
      (∃ v, j.getField "sourceDir" = some v ∧ v ≠ .null) ∧
      (∃ v, j.getField "capabilities" = some v ∧ v ≠ .null)) ∧
    (∀ (path : String) (j : Json) (r : CondaPackageMetadata),
      validateCondaPackageMetadata path j = .ok r →
      ∀ f ∈ (["name", "version", "build", "subdir"] : List String),
        ∃ v, j.getField f = some v ∧ v ≠ .null) ∧
    (∀ (j : Json) (r : CondaMetadataResult),
      validateCondaMetadataResult j = .ok r →
      ∃ v, j.getField "packages" = some v ∧ v ≠ .null) := by
  refine ⟨?_, ?_, ?_, ?_, ?_, ?_, ?_, ?_,
    fun fs j r h => initParams_ok_required_present h,
    fun path j r h => package_ok_required_present h,
    fun j r h => result_ok_packages_present h⟩
  · intro fs kvs hg
    apply eq_error_of_mem_errs
    apply mem_errs_initParams_sourceDir
    rw [hg]
    exact List.mem_singleton_self _
  · intro fs kvs hg
    apply eq_error_of_mem_errs
    apply mem_errs_initParams_capabilities
    rw [hg]
    exact List.mem_singleton_self _
  · intro path kvs f hf hg
    apply eq_error_of_mem_errs
    simp only [List.mem_cons, List.not_mem_nil, or_false] at hf
    rcases hf with hf | hf | hf | hf <;> subst hf
    · apply mem_errs_package_name
      rw [hg]
      exact List.mem_singleton_self _
    · apply mem_errs_package_version
      rw [hg]
      exact List.mem_singleton_self _
    · apply mem_errs_package_build
      rw [hg]
      exact List.mem_singleton_self _
    · apply mem_errs_package_subdir
      rw [hg]
      exact List.mem_singleton_self _
  · intro kvs hg
    rw [show validateCondaMetadataResult (Json.obj kvs) =
      (match (Json.obj kvs).getField "packages" with
       | none => .error [.missingField "packages"]
       | some (.arr js) => (validatePackagesList "packages" 0 js).map
          (fun ps => CondaMetadataResult.mk ps)
       | some _ => .error [.notAList "packages"]) from rfl, hg]
  · intro fs kvs hg
    have h := @mem_errs_initParams_sourceDir fs kvs (.notAString "sourceDir")
      (by rw [hg]; exact List.mem_singleton_self _)
    obtain ⟨es, he, hm⟩ := eq_error_of_mem_errs h
    exact ⟨es, _, he, hm, rfl⟩
  · intro fs kvs hg
    have h := @mem_errs_initParams_capabilities fs kvs (.notAnObject "capabilities")
      (by rw [hg]; exact List.mem_singleton_self _)
    obtain ⟨es, he, hm⟩ := eq_error_of_mem_errs h
    exact ⟨es, _, he, hm, rfl⟩
  · intro path kvs f hf hg
    simp only [List.mem_cons, List.not_mem_nil, or_false] at hf
    rcases hf with hf | hf | hf | hf <;> subst hf
    · have h := @mem_errs_package_name path kvs
        (.notAString (joinPath path "name"))
        (by rw [hg]; exact List.mem_singleton_self _)
      obtain ⟨es, he, hm⟩ := eq_error_of_mem_errs h
      exact ⟨es, _, he, hm, rfl⟩
    · have h := @mem_errs_package_version path kvs
        (.notAString (joinPath path "version"))
        (by rw [hg]; exact List.mem_singleton_self _)
      obtain ⟨es, he, hm⟩ := eq_error_of_mem_errs h
      exact ⟨es, _, he, hm, rfl⟩
    · have h := @mem_errs_package_build path kvs
        (.notAString (joinPath path "build"))
        (by rw [hg]; exact List.mem_singleton_self _)
      obtain ⟨es, he, hm⟩ := eq_error_of_mem_errs h
      exact ⟨es, _, he, hm, rfl⟩
    · have h := @mem_errs_package_subdir path kvs
        (.notAString (joinPath path "subdir"))
        (by rw [hg]; exact List.mem_singleton_self _)
      obtain ⟨es, he, hm⟩ := eq_error_of_mem_errs h
      exact ⟨es, _, he, hm, rfl⟩
  · intro kvs hg
    rw [show validateCondaMetadataResult (Json.obj kvs) =
      (match (Json.obj kvs).getField "packages" with
       | none => .error [.missingField "packages"]
       | some (.arr js) => (validatePackagesList "packages" 0 js).map
          (fun ps => CondaMetadataResult.mk ps)
       | some _ => .error [.notAList "packages"]) from rfl, hg]

/-- C7 witness: a payload without `sourceDir` fails naming it, a payload
without `version` fails naming it, an empty object fails the result
validation naming `packages`, and a complete payload validates with all
required fields present. -/
theorem C7_required_fields_witness :
    (∃ es, validateInitializeParams (fun _ => PathKind.directory)
        (.obj [("capabilities", .obj [])]) = .error es ∧
      ValidationError.missingField "sourceDir" ∈ es) ∧
    (∃ es, validateCondaPackageMetadata "" (.obj [("name", .str "foo")]) =
        .error es ∧ ValidationError.missingField "version" ∈ es) ∧
    validateCondaMetadataResult (.obj []) = .error [.missingField "packages"] ∧
    (∃ v, (Json.obj [("packages", .arr [])]).getField "packages" =
      some v ∧ v ≠ .null) :=
  ⟨C7_required_fields.1 (fun _ => PathKind.directory) _ rfl,
   C7_required_fields.2.2.1 "" [("name", .str "foo")] "version"
     (by simp) rfl,
   C7_required_fields.2.2.2.1 [] rfl,
   C7_required_fields.2.2.2.2.2.2.2.2.2.2
     (Json.obj [("packages", .arr [])]) (CondaMetadataResult.mk []) rfl⟩

/-- C8: validating `BackendCapabilities` with `providesCondaMetadata`
absent or explicitly null yields the value `none` (unspecified), the
explicit `false` yields `some false`, and the two typed values are
distinct — absence is never coerced to `false`. -/
theorem C8_providesCondaMetadata_tristate :
    (∀ (p : String) (kvs : List (String × Json)),
      (Json.obj kvs).getField "providesCondaMetadata" = none →
      validateBackendCapabilities p (.obj kvs) =
        .ok (BackendCapabilities.mk none)) ∧
    (∀ (p : String) (kvs : List (String × Json)),
      (Json.obj kvs).getField "providesCondaMetadata" = some .null →
      validateBackendCapabilities p (.obj kvs) =
        .ok (BackendCapabilities.mk none)) ∧
    validateBackendCapabilities ""
      (.obj [("providesCondaMetadata", .bool false)]) =
      .ok (BackendCapabilities.mk (some false)) ∧
    BackendCapabilities.mk none ≠ BackendCapabilities.mk (some false) := by
  refine ⟨?_, ?_, rfl, by decide⟩
  · intro p kvs hg
    show (validateOptBool (joinPath p "providesCondaMetadata")
        ((Json.obj kvs).getField "providesCondaMetadata")).map
      (fun b => BackendCapabilities.mk b) = _
    rw [hg]
    rfl
  · intro p kvs hg
    show (validateOptBool (joinPath p "providesCondaMetadata")
        ((Json.obj kvs).getField "providesCondaMetadata")).map
      (fun b => BackendCapabilities.mk b) = _
    rw [hg]
    rfl

/-- C8 witness: an empty object and an explicit null both validate to
the unspecified value `none`. -/
theorem C8_providesCondaMetadata_tristate_witness :
    validateBackendCapabilities "" (.obj []) =
      .ok (BackendCapabilities.mk none) ∧
    validateBackendCapabilities "" (.obj [("providesCondaMetadata", .null)]) =
      .ok (BackendCapabilities.mk none) :=
  ⟨C8_providesCondaMetadata_tristate.1 "" [] rfl,
   C8_providesCondaMetadata_tristate.2.1 "" [("providesCondaMetadata", .null)]
     rfl⟩

/-- C9: the emitted schema document consists of exactly the four
union-member shapes plus the shapes they reference, so every one of the
six protocol message shapes appears in it; its required/optional
markings are faithful to validation — every field the document marks
required for `CondaPackageMetadata` or `InitializeParams` must be
present and non-null for validation to succeed. -/
theorem C9_schema_union_defs :
    schemaDocument = [initializeParamsSchema, initializeResultSchema,
      condaMetadataParamsSchema, condaMetadataResultSchema,
      frontendCapabilitiesSchema, backendCapabilitiesSchema,
      condaPackageMetadataSchema] ∧
    (∀ n ∈ (["InitializeParams", "InitializeResult", "CondaMetadataParams",
        "CondaMetadataResult", "FrontendCapabilities",
        "BackendCapabilities"] : List String),
      ∃ m ∈ schemaDocument, m.mname = n) ∧
    requiredFieldsInDoc "InitializeParams" = ["sourceDir", "capabilities"] ∧
    requiredFieldsInDoc "CondaPackageMetadata" =
      ["name", "version", "build", "subdir"] ∧
    requiredFieldsInDoc "CondaMetadataParams" = [] ∧
    requiredFieldsInDoc "CondaMetadataResult" = ["packages"] ∧
    (∀ f ∈ requiredFieldsInDoc "CondaPackageMetadata",
      ∀ (path : String) (j : Json) (r : CondaPackageMetadata),
        validateCondaPackageMetadata path j = .ok r →
        ∃ v, j.getField f = some v ∧ v ≠ .null) ∧
    (∀ f ∈ requiredFieldsInDoc "InitializeParams",
      ∀ (fs : FileSystem) (j : Json) (r : InitializeParams),
        validateInitializeParams fs j = .ok r →
        ∃ v, j.getField f = some v ∧ v ≠ .null) := by
  refine ⟨rfl, by decide, rfl, rfl, rfl, rfl, ?_, ?_⟩
  · intro f hf path j r h
    have he : requiredFieldsInDoc "CondaPackageMetadata" =
        ["name", "version", "build", "subdir"] := rfl
    rw [he] at hf
    exact package_ok_required_present h f hf
  · intro f hf fs j r h
    have he : requiredFieldsInDoc "InitializeParams" =
        ["sourceDir", "capabilities"] := rfl
    rw [he] at hf
    simp only [List.mem_cons, List.not_mem_nil, or_false] at hf
    rcases hf with hf | hf <;> subst hf
    · exact (initParams_ok_required_present h).1
    · exact (initParams_ok_required_present h).2

/-- C9 witness: `BackendCapabilities` appears in the emitted document,
and the document's required marking of `name` is honoured by a concrete
successful validation. -/
theorem C9_schema_union_defs_witness :
    (∃ m ∈ schemaDocument, m.mname = "BackendCapabilities") ∧
    (∃ v, (Json.obj [("name", .str "foo"), ("version", .str "1.0"),
      ("build", .str "py_0"), ("subdir", .str "linux-64")]).getField "name" =
        some v ∧ v ≠ .null) :=
  ⟨C9_schema_union_defs.2.1 "BackendCapabilities" (by simp),
   C9_schema_union_defs.2.2.2.2.2.2.1 "name" (by decide)
     "" _ (CondaPackageMetadata.mk "foo" "1.0" "py_0" 0 "linux-64"
       none none none none) rfl⟩

/-- C10: `CondaMetadataParams` with `channelBaseUrls` absent validates
successfully to the value `none` for that field — neither a
missing-field failure nor an empty list — while an explicit null fails
the list type check, and a present array (possibly empty) is validated
entry by entry into a list. -/
theorem C10_channelBaseUrls_absent_default :
    validateChannelBaseUrls none = .ok none ∧
    (∀ (kvs : List (String × Json)) (r : CondaMetadataParams),
      (Json.obj kvs).getField "channelBaseUrls" = none →
      validateCondaMetadataParams (.obj kvs) = .ok r →
      r.channelBaseUrls = none) ∧
    validateCondaMetadataParams (Json.obj []) =
      .ok (CondaMetadataParams.mk none none) ∧
    validateChannelBaseUrls (some .null) =
      .error [.notAList "channelBaseUrls"] ∧
    (∀ (kvs : List (String × Json)),
      (Json.obj kvs).getField "channelBaseUrls" = some .null →
      ∃ es, validateCondaMetadataParams (.obj kvs) = .error es ∧
        ValidationError.notAList "channelBaseUrls" ∈ es) ∧
    validateChannelBaseUrls (some (.arr [])) = .ok (some []) ∧
    (∀ (js : List Json) (us : List CondaUrl),
      validateCondaUrlList "channelBaseUrls" 0 js = .ok us →
      validateChannelBaseUrls (some (.arr js)) = .ok (some us)) := by
  refine ⟨rfl, ?_, rfl, rfl, ?_, rfl, ?_⟩
  · intro kvs r hg h
    have h₂ := (validateCondaMetadataParams_ok_parts h).2.2
    rw [hg] at h₂
    have h₃ : (Except.ok (none : Option (List CondaUrl)) :
        V (Option (List CondaUrl))) = .ok r.channelBaseUrls := h₂
    injection h₃ with h₄
    exact h₄.symm
  · intro kvs hg
    apply eq_error_of_mem_errs
    apply mem_errs_params_channelBaseUrls
    rw [hg]
    exact List.mem_singleton_self _
  · intro js us h
    show (validateCondaUrlList "channelBaseUrls" 0 js).map some = _
    rw [h]
    rfl

/-- C10 witness: a payload with only `targetPlatform` yields the absent
default, an explicit null fails with the list-type diagnostic, and a
present singleton array validates entrywise. -/
theorem C10_channelBaseUrls_absent_default_witness :
    (CondaMetadataParams.mk (some "linux-64") none).channelBaseUrls = none ∧
    (∃ es, validateCondaMetadataParams (.obj [("channelBaseUrls", .null)]) =
        .error es ∧ ValidationError.notAList "channelBaseUrls" ∈ es) ∧
    validateChannelBaseUrls (some (.arr [.str "https://a/b"])) =
      .ok (some [CondaUrl.mk "https" "a/b"]) :=
  ⟨C10_channelBaseUrls_absent_default.2.1
     [("targetPlatform", .str "linux-64")] _ rfl rfl,
   C10_channelBaseUrls_absent_default.2.2.2.2.1 [("channelBaseUrls", .null)]
     rfl,
   C10_channelBaseUrls_absent_default.2.2.2.2.2.2 [.str "https://a/b"]
     [CondaUrl.mk "https" "a/b"] rfl⟩

end PixiSchema
